import Mathlib

/-!
Shallow embedding of `alacritty/src/linux_tabs.rs`: desktop-environment
detection, availability probing, and tab-action dispatch via external
processes.  External process execution (`std::process::Command::output`)
is modelled as an injectable executor `Invocation → Except String Output`:
`Except.error e` models a spawn failure carrying the OS error text `e`
(propagated by Rust's `?`), and `Except.ok out` models a process that ran
to completion with exit-status success flag `out.success` and captured
standard error `out.stderr` (the `from_utf8_lossy` text).
-/

namespace LinuxTabs

/-- Boolean test that the first character list is a leading segment of the
second; used to embed Rust's `str::contains` substring search. -/
def charsStarts : List Char → List Char → Bool
  | [], _ => true
  | _ :: _, [] => false
  | a :: as, b :: bs => a == b && charsStarts as bs

/-- Boolean test that `needle` occurs contiguously somewhere inside the
haystack character list. -/
def charsHas (needle : List Char) : List Char → Bool
  | [] => charsStarts needle []
  | b :: bs => charsStarts needle (b :: bs) || charsHas needle bs

/-- Embedding of Rust's `str::contains(pat)`: case-sensitive contiguous
substring match of `needle` inside `haystack`. -/
def strContains (haystack needle : String) : Bool :=
  charsHas needle.toList haystack.toList

/-- Desktop environments with tabbing support (`enum DesktopEnvironment`
in `linux_tabs.rs`). -/
inductive DesktopEnvironment where
  | GNOME
  | KDE
  deriving DecidableEq, Repr

/-- The three tab actions the module exposes, one per public dispatch
method of `impl DesktopEnvironment` (`create_tab`, `select_next_tab`,
`select_previous_tab`). -/
inductive TabAction where
  | CreateTab
  | SelectNextTab
  | SelectPreviousTab
  deriving DecidableEq, Repr

/-- Embedding of `detect_desktop_environment`: the argument models
`env::var("XDG_CURRENT_DESKTOP")`, with `none` for an absent or unreadable
variable (the `.ok()?` early return). -/
def detect_desktop_environment (xdgCurrentDesktop : Option String) :
    Option DesktopEnvironment :=
  match xdgCurrentDesktop with
  | none => none
  | some desktop =>
    if strContains desktop "GNOME" then some DesktopEnvironment.GNOME
    else if strContains desktop "KDE" then some DesktopEnvironment.KDE
    else none

/-- Outcome of a completed external process: exit-status success flag and
captured standard-error text. -/
structure Output where
  success : Bool
  stderr : String
  deriving DecidableEq, Repr

/-- One external process invocation: executable name and argument list, as
built by `Command::new(program).args(args)`. -/
structure Invocation where
  program : String
  args : List String
  deriving DecidableEq, Repr

/-- The injectable external-process capability: spawn the invocation and
either fail to spawn (`Except.error` with the OS error text) or return the
process outcome. -/
def Executor : Type := Invocation → Except String Output

/-- The `gdbus` invocation built in `create_tab` for GNOME. -/
def gnomeCreateTabInvocation : Invocation :=
  { program := "gdbus",
    args := ["call", "--session", "--dest", "org.gnome.Shell",
             "--object-path", "/org/gnome/Shell",
             "--method", "org.gnome.Shell.Eval",
             "global.display.focus_window && global.display.focus_window.new_tab()"] }

/-- The `qdbus` invocation built in `create_tab` for KDE. -/
def kdeCreateTabInvocation : Invocation :=
  { program := "qdbus",
    args := ["org.kde.konsole", "/Konsole", "org.kde.KMainWindow.newTab"] }

/-- The `gdbus` invocation built in `select_next_tab` for GNOME. -/
def gnomeNextTabInvocation : Invocation :=
  { program := "gdbus",
    args := ["call", "--session", "--dest", "org.gnome.Shell",
             "--object-path", "/org/gnome/Shell",
             "--method", "org.gnome.Shell.Eval",
             "global.display.focus_window && global.display.focus_window.switch_to_next_tab()"] }

/-- The `qdbus` invocation built in `select_next_tab` for KDE. -/
def kdeNextTabInvocation : Invocation :=
  { program := "qdbus",
    args := ["org.kde.konsole", "/Konsole", "org.kde.KMainWindow.nextTab"] }

/-- The `gdbus` invocation built in `select_previous_tab` for GNOME. -/
def gnomePreviousTabInvocation : Invocation :=
  { program := "gdbus",
    args := ["call", "--session", "--dest", "org.gnome.Shell",
             "--object-path", "/org/gnome/Shell",
             "--method", "org.gnome.Shell.Eval",
             "global.display.focus_window && global.display.focus_window.switch_to_previous_tab()"] }

/-- The `qdbus` invocation built in `select_previous_tab` for KDE. -/
def kdePreviousTabInvocation : Invocation :=
  { program := "qdbus",
    args := ["org.kde.konsole", "/Konsole", "org.kde.KMainWindow.previousTab"] }

/-- Embedding of `DesktopEnvironment::create_tab`: spawn the template
process (propagating a spawn failure unchanged, as `?` does), then return
`ok` on success status and otherwise the formatted diagnostic with the
captured standard error. -/
def create_tab (exec : Executor) (env : DesktopEnvironment) :
    Except String Unit :=
  match env with
  | DesktopEnvironment.GNOME =>
    match exec gnomeCreateTabInvocation with
    | Except.error e => Except.error e
    | Except.ok output =>
      if output.success then Except.ok ()
      else Except.error ("GNOME tab creation failed: " ++ output.stderr)
  | DesktopEnvironment.KDE =>
    match exec kdeCreateTabInvocation with
    | Except.error e => Except.error e
    | Except.ok output =>
      if output.success then Except.ok ()
      else Except.error ("KDE tab creation failed: " ++ output.stderr)

/-- Embedding of `DesktopEnvironment::select_next_tab`. -/
def select_next_tab (exec : Executor) (env : DesktopEnvironment) :
    Except String Unit :=
  match env with
  | DesktopEnvironment.GNOME =>
    match exec gnomeNextTabInvocation with
    | Except.error e => Except.error e
    | Except.ok output =>
      if output.success then Except.ok ()
      else Except.error ("GNOME next tab selection failed: " ++ output.stderr)
  | DesktopEnvironment.KDE =>
    match exec kdeNextTabInvocation with
    | Except.error e => Except.error e
    | Except.ok output =>
      if output.success then Except.ok ()
      else Except.error ("KDE next tab selection failed: " ++ output.stderr)

/-- Embedding of `DesktopEnvironment::select_previous_tab`. -/
def select_previous_tab (exec : Executor) (env : DesktopEnvironment) :
    Except String Unit :=
  match env with
  | DesktopEnvironment.GNOME =>
    match exec gnomePreviousTabInvocation with
    | Except.error e => Except.error e
    | Except.ok output =>
      if output.success then Except.ok ()
      else Except.error ("GNOME previous tab selection failed: " ++ output.stderr)
  | DesktopEnvironment.KDE =>
    match exec kdePreviousTabInvocation with
    | Except.error e => Except.error e
    | Except.ok output =>
      if output.success then Except.ok ()
      else Except.error ("KDE previous tab selection failed: " ++ output.stderr)

/-- The probe invocation used by `is_available`: `which gdbus` for GNOME,
`which qdbus` for KDE. -/
def probeInvocation : DesktopEnvironment → Invocation
  | DesktopEnvironment.GNOME => { program := "which", args := ["gdbus"] }
  | DesktopEnvironment.KDE => { program := "which", args := ["qdbus"] }

/-- Embedding of `DesktopEnvironment::is_available`: run the probe, map a
completed process to its success flag, and collapse a spawn failure to
`false` (`.map(..).unwrap_or(false)`). -/
def is_available (exec : Executor) (env : DesktopEnvironment) : Bool :=
  match env with
  | DesktopEnvironment.GNOME =>
    match exec { program := "which", args := ["gdbus"] } with
    | Except.ok output => output.success
    | Except.error _ => false
  | DesktopEnvironment.KDE =>
    match exec { program := "which", args := ["qdbus"] } with
    | Except.ok output => output.success
    | Except.error _ => false

/-- Dispatch of a `TabAction` against a `DesktopEnvironment`: selects the
corresponding public method of `impl DesktopEnvironment`. -/
def dispatch (exec : Executor) (env : DesktopEnvironment)
    (action : TabAction) : Except String Unit :=
  match action with
  | TabAction.CreateTab => create_tab exec env
  | TabAction.SelectNextTab => select_next_tab exec env
  | TabAction.SelectPreviousTab => select_previous_tab exec env

/-- The call template used by each (environment, action) pair. -/
def invocationFor : DesktopEnvironment → TabAction → Invocation
  | DesktopEnvironment.GNOME, TabAction.CreateTab => gnomeCreateTabInvocation
  | DesktopEnvironment.GNOME, TabAction.SelectNextTab => gnomeNextTabInvocation
  | DesktopEnvironment.GNOME, TabAction.SelectPreviousTab => gnomePreviousTabInvocation
  | DesktopEnvironment.KDE, TabAction.CreateTab => kdeCreateTabInvocation
  | DesktopEnvironment.KDE, TabAction.SelectNextTab => kdeNextTabInvocation
  | DesktopEnvironment.KDE, TabAction.SelectPreviousTab => kdePreviousTabInvocation

/-- The environment name as it appears in diagnostic messages. -/
def envName : DesktopEnvironment → String
  | DesktopEnvironment.GNOME => "GNOME"
  | DesktopEnvironment.KDE => "KDE"

/-- The action description as it appears in diagnostic messages. -/
def actionDescription : TabAction → String
  | TabAction.CreateTab => "tab creation"
  | TabAction.SelectNextTab => "next tab selection"
  | TabAction.SelectPreviousTab => "previous tab selection"

/-- The literal diagnostic-message head each (environment, action) pair
formats in its non-success branch. -/
def failMsgHead : DesktopEnvironment → TabAction → String
  | DesktopEnvironment.GNOME, TabAction.CreateTab => "GNOME tab creation failed: "
  | DesktopEnvironment.GNOME, TabAction.SelectNextTab => "GNOME next tab selection failed: "
  | DesktopEnvironment.GNOME, TabAction.SelectPreviousTab => "GNOME previous tab selection failed: "
  | DesktopEnvironment.KDE, TabAction.CreateTab => "KDE tab creation failed: "
  | DesktopEnvironment.KDE, TabAction.SelectNextTab => "KDE next tab selection failed: "
  | DesktopEnvironment.KDE, TabAction.SelectPreviousTab => "KDE previous tab selection failed: "

/-- The shared run-one-template shape every dispatch branch follows. -/
def runTemplate (exec : Executor) (inv : Invocation) (msgHead : String) :
    Except String Unit :=
  match exec inv with
  | Except.error e => Except.error e
  | Except.ok output =>
    if output.success then Except.ok ()
    else Except.error (msgHead ++ output.stderr)

/-- The registry key set: all supported (environment, action) pairs. -/
def registryPairs : List (DesktopEnvironment × TabAction) :=
  [(DesktopEnvironment.GNOME, TabAction.CreateTab),
   (DesktopEnvironment.GNOME, TabAction.SelectNextTab),
   (DesktopEnvironment.GNOME, TabAction.SelectPreviousTab),
   (DesktopEnvironment.KDE, TabAction.CreateTab),
   (DesktopEnvironment.KDE, TabAction.SelectNextTab),
   (DesktopEnvironment.KDE, TabAction.SelectPreviousTab)]

/-- The registry: each supported pair with its call template. -/
def registry : List ((DesktopEnvironment × TabAction) × Invocation) :=
  registryPairs.map (fun p => (p, invocationFor p.1 p.2))

/-- Trace-instrumented spawn: returns the executor's answer together with
the singleton list recording the one process this spawn launches. -/
def runSpawnW (exec : Executor) (inv : Invocation) :
    Except String Output × List Invocation :=
  (exec inv, [inv])

/-- Trace-instrumented dispatch: the same branch structure as `dispatch`,
additionally recording every spawned invocation. -/
def dispatchW (exec : Executor) (env : DesktopEnvironment)
    (action : TabAction) : Except String Unit × List Invocation :=
  let inv := invocationFor env action
  let step := runSpawnW exec inv
  (match step.1 with
   | Except.error e => Except.error e
   | Except.ok output =>
     if output.success then Except.ok ()
     else Except.error (failMsgHead env action ++ output.stderr),
   step.2)

theorem dispatch_eq_runTemplate (exec : Executor) (env : DesktopEnvironment)
    (action : TabAction) :
    dispatch exec env action =
      runTemplate exec (invocationFor env action) (failMsgHead env action) := by
  cases env <;> cases action <;> rfl

theorem failMsgHead_eq (env : DesktopEnvironment) (action : TabAction) :
    failMsgHead env action =
      envName env ++ " " ++ actionDescription action ++ " failed: " := by
  cases env <;> cases action <;> rfl

/-- C3: `is_available` is true exactly when the probe process runs and
exits with success status; a spawn failure or a non-success exit yields
false, and no failure is ever propagated (the result is a total Boolean). -/
theorem is_available_iff_probe_success (exec : Executor)
    (env : DesktopEnvironment) :
    is_available exec env = true ↔
      ∃ output, exec (probeInvocation env) = Except.ok output ∧
        output.success = true := by
  cases env <;>
    rcases h : exec (probeInvocation _) with e | output <;>
    simp [is_available, probeInvocation] at h ⊢ <;> simp [h]

/-- C4: for every environment and action, if the launched external process
exits with success status, dispatch returns `ok` with no diagnostic text. -/
theorem dispatch_ok_of_success (exec : Executor) (env : DesktopEnvironment)
    (action : TabAction) (output : Output)
    (hrun : exec (invocationFor env action) = Except.ok output)
    (hs : output.success = true) :
    dispatch exec env action = Except.ok () := by
  rw [dispatch_eq_runTemplate, runTemplate, hrun]
  simp [hs]

theorem dispatch_ok_of_success_witness :
    dispatch (fun _ => Except.ok { success := true, stderr := "" })
      DesktopEnvironment.GNOME TabAction.CreateTab = Except.ok () :=
  dispatch_ok_of_success (fun _ => Except.ok { success := true, stderr := "" })
    DesktopEnvironment.GNOME TabAction.CreateTab
    { success := true, stderr := "" } rfl rfl

/-- C5: for every environment and action, a non-success exit with stderr
"no such window" yields a failure whose message contains both the
environment's name and that stderr text. -/
theorem dispatch_failure_mentions_env_and_stderr (exec : Executor)
    (env : DesktopEnvironment) (action : TabAction) (output : Output)
    (hrun : exec (invocationFor env action) = Except.ok output)
    (hs : output.success = false)
    (hstderr : output.stderr = "no such window") :
    ∃ msg, dispatch exec env action = Except.error msg ∧
      strContains msg (envName env) = true ∧
      strContains msg "no such window" = true := by
  refine ⟨failMsgHead env action ++ "no such window", ?_, ?_, ?_⟩
  · rw [dispatch_eq_runTemplate, runTemplate, hrun]
    simp [hs, hstderr]
  · cases env <;> cases action <;> decide
  · cases env <;> cases action <;> decide

theorem dispatch_failure_mentions_env_and_stderr_witness :
    ∃ msg,
      dispatch (fun _ => Except.ok { success := false, stderr := "no such window" })
        DesktopEnvironment.KDE TabAction.SelectPreviousTab = Except.error msg ∧
      strContains msg (envName DesktopEnvironment.KDE) = true ∧
      strContains msg "no such window" = true :=
  dispatch_failure_mentions_env_and_stderr
    (fun _ => Except.ok { success := false, stderr := "no such window" })
    DesktopEnvironment.KDE TabAction.SelectPreviousTab
    { success := false, stderr := "no such window" } rfl rfl rfl

/-- C1 counterexample: when the process cannot be spawned, the failure
message is the raw spawn error; it does not name the environment and does
not have the "... failed: ..." form the claim asserts for both failure
modes. -/
theorem spawn_error_message_lacks_environment :
    dispatch (fun _ => Except.error "No such file or directory (os error 2)")
      DesktopEnvironment.GNOME TabAction.CreateTab =
      Except.error "No such file or directory (os error 2)" ∧
    strContains "No such file or directory (os error 2)" "GNOME" = false ∧
    strContains "No such file or directory (os error 2)" "failed:" = false :=
  ⟨rfl, by decide, by decide⟩

/-- C1 amended: a non-success exit yields the failure message
"<EnvironmentName> <action-description> failed: <captured-stderr>", while
a spawn failure yields a failure carrying the spawn error text unchanged,
without the environment/action head. -/
theorem dispatch_failure_message_forms (exec : Executor)
    (env : DesktopEnvironment) (action : TabAction) :
    (∀ output, exec (invocationFor env action) = Except.ok output →
      output.success = false →
      dispatch exec env action =
        Except.error (envName env ++ " " ++ actionDescription action ++
          " failed: " ++ output.stderr)) ∧
    (∀ e, exec (invocationFor env action) = Except.error e →
      dispatch exec env action = Except.error e) := by
  constructor
  · intro output hrun hs
    rw [dispatch_eq_runTemplate, runTemplate, hrun]
    simp [hs, failMsgHead_eq env action, String.append_assoc]
  · intro e hrun
    rw [dispatch_eq_runTemplate, runTemplate, hrun]

theorem dispatch_failure_message_forms_witness :
    dispatch (fun _ => Except.ok { success := false, stderr := "boom" })
      DesktopEnvironment.GNOME TabAction.CreateTab =
      Except.error (envName DesktopEnvironment.GNOME ++ " " ++
        actionDescription TabAction.CreateTab ++ " failed: " ++ "boom") ∧
    dispatch (fun _ => Except.error "spawn error")
      DesktopEnvironment.KDE TabAction.SelectNextTab =
      Except.error "spawn error" :=
  ⟨(dispatch_failure_message_forms
      (fun _ => Except.ok { success := false, stderr := "boom" })
      DesktopEnvironment.GNOME TabAction.CreateTab).1
      { success := false, stderr := "boom" } rfl rfl,
   (dispatch_failure_message_forms (fun _ => Except.error "spawn error")
      DesktopEnvironment.KDE TabAction.SelectNextTab).2 "spawn error" rfl⟩

/-- C10: a spawn failure is returned as a failure whose message is exactly
the operating-system spawn error, with no environment name or action
description attached; the "<EnvironmentName> <action> failed:" head is
produced only by the launched-but-non-success branch. -/
theorem dispatch_spawn_error_propagated_raw (exec : Executor)
    (env : DesktopEnvironment) (action : TabAction) :
    (∀ e, exec (invocationFor env action) = Except.error e →
      dispatch exec env action = Except.error e) ∧
    (∀ output, exec (invocationFor env action) = Except.ok output →
      output.success = false →
      dispatch exec env action =
        Except.error (failMsgHead env action ++ output.stderr)) := by
  constructor
  · intro e hrun
    rw [dispatch_eq_runTemplate, runTemplate, hrun]
  · intro output hrun hs
    rw [dispatch_eq_runTemplate, runTemplate, hrun]
    simp [hs]

theorem dispatch_spawn_error_propagated_raw_witness :
    dispatch (fun _ => Except.error "Permission denied (os error 13)")
      DesktopEnvironment.GNOME TabAction.SelectNextTab =
      Except.error "Permission denied (os error 13)" :=
  (dispatch_spawn_error_propagated_raw
    (fun _ => Except.error "Permission denied (os error 13)")
    DesktopEnvironment.GNOME TabAction.SelectNextTab).1
    "Permission denied (os error 13)" rfl

/-- C2 counterexample: a value containing the substring "KDE" for which
detection does not return KDE, because it also contains "GNOME" and the
GNOME check runs first. -/
theorem detect_kde_clause_fails_on_ambiguous_value :
    strContains "ubuntu:GNOME;KDE" "KDE" = true ∧
    detect_desktop_environment (some "ubuntu:GNOME;KDE") ≠
      some DesktopEnvironment.KDE ∧
    detect_desktop_environment (some "ubuntu:GNOME;KDE") =
      some DesktopEnvironment.GNOME := by
  refine ⟨by decide, by decide, by decide⟩

/-- C2 amended: detection returns GNOME when the variable's value contains
"GNOME"; returns KDE when the value contains "KDE" but not "GNOME"; and
returns none when the variable is absent/unreadable or its value contains
neither substring.  Matching is substring-based and case-sensitive. -/
theorem detect_characterization :
    detect_desktop_environment none = none ∧
    (∀ v, strContains v "GNOME" = true →
      detect_desktop_environment (some v) = some DesktopEnvironment.GNOME) ∧
    (∀ v, strContains v "GNOME" = false → strContains v "KDE" = true →
      detect_desktop_environment (some v) = some DesktopEnvironment.KDE) ∧
    (∀ v, strContains v "GNOME" = false → strContains v "KDE" = false →
      detect_desktop_environment (some v) = none) := by
  refine ⟨rfl, ?_, ?_, ?_⟩
  · intro v h
    simp [detect_desktop_environment, h]
  · intro v hg hk
    simp [detect_desktop_environment, hg, hk]
  · intro v hg hk
    simp [detect_desktop_environment, hg, hk]

theorem detect_characterization_witness :
    detect_desktop_environment (some "ubuntu:GNOME") =
      some DesktopEnvironment.GNOME ∧
    detect_desktop_environment (some "KDE") = some DesktopEnvironment.KDE ∧
    detect_desktop_environment (some "XFCE") = none :=
  ⟨detect_characterization.2.1 "ubuntu:GNOME" (by decide),
   detect_characterization.2.2.1 "KDE" (by decide) (by decide),
   detect_characterization.2.2.2 "XFCE" (by decide) (by decide)⟩

/-- C9: when the variable's value contains both "GNOME" and "KDE",
detection returns GNOME — the GNOME check is performed first, so GNOME
takes precedence on ambiguous values. -/
theorem detect_gnome_precedence (v : String)
    (hg : strContains v "GNOME" = true)
    (hk : strContains v "KDE" = true) :
    detect_desktop_environment (some v) = some DesktopEnvironment.GNOME := by
  simp [detect_desktop_environment, hg]

theorem detect_gnome_precedence_witness :
    detect_desktop_environment (some "GNOME KDE") =
      some DesktopEnvironment.GNOME :=
  detect_gnome_precedence "GNOME KDE" (by decide) (by decide)

/-- C6: the registry covers the two environments crossed with the three
actions — six entries, exactly one per pair — and every pair dispatches
through the single well-defined run-one-template path (no lookup failure,
no unreachable or panicking branch). -/
theorem registry_exhaustive_no_panic :
    registry.length = 6 ∧
    (∀ env action, (registryPairs.count (env, action)) = 1) ∧
    (∀ exec env action,
      dispatch exec env action =
        runTemplate exec (invocationFor env action) (failMsgHead env action)) :=
  ⟨rfl,
   by intro env action; cases env <;> cases action <;> decide,
   by intro exec env action; cases env <;> cases action <;> rfl⟩

/-- C7: every dispatch spawns exactly one external process — the pair's
template invocation, attempted once with no retry — and the result is a
pure function of the executor's single answer, so no state is held between
calls. -/
theorem dispatch_single_spawn_no_retry (exec : Executor)
    (env : DesktopEnvironment) (action : TabAction) :
    (dispatchW exec env action).2 = [invocationFor env action] ∧
    (dispatchW exec env action).2.length = 1 ∧
    (dispatchW exec env action).1 = dispatch exec env action := by
  refine ⟨rfl, rfl, ?_⟩
  cases env <;> cases action <;> rfl

/-- C8: every GNOME dispatch is a `gdbus` session-bus call naming service
org.gnome.Shell, object path /org/gnome/Shell, and method
org.gnome.Shell.Eval with a single trailing expression-string payload;
every KDE dispatch runs the `qdbus` binary with exactly three fixed
positional arguments targeting org.kde.konsole. -/
theorem invocation_shapes :
    (∀ action,
      (invocationFor DesktopEnvironment.GNOME action).program = "gdbus" ∧
      (invocationFor DesktopEnvironment.GNOME action).args.take 8 =
        ["call", "--session", "--dest", "org.gnome.Shell",
         "--object-path", "/org/gnome/Shell",
         "--method", "org.gnome.Shell.Eval"] ∧
      (invocationFor DesktopEnvironment.GNOME action).args.length = 9) ∧
    (∀ action,
      (invocationFor DesktopEnvironment.KDE action).program = "qdbus" ∧
      (invocationFor DesktopEnvironment.KDE action).args.head? =
        some "org.kde.konsole" ∧
      (invocationFor DesktopEnvironment.KDE action).args.length = 3) :=
  ⟨by intro action; cases action <;> exact ⟨rfl, rfl, rfl⟩,
   by intro action; cases action <;> exact ⟨rfl, rfl, rfl⟩⟩

end LinuxTabs
